import Mathlib

/-!
Shallow embedding of the collective-communication backend in
src/cupyx/distributed/_comm.py (class NCCLBackend) and verification of the
frozen claims about it.

The backend itself is transcribed from the source file.  The collaborators it
consumes — the array/buffer library, the device transport (nccl module) and
the rendezvous store — are not under src/, so they are modelled from the
spec, each such definition carrying a doc comment starting
`Modelled from the spec:`.

Every operation is embedded as a function returning the pair of its outcome
(normal return or the raised exception) and the ordered list of external
calls it issued, so that claims about which transport calls happen, with
which arguments, and whether they happen before or after a raised error, are
statable and executable.
-/

namespace CupyxDistributed

/-- Python exception kinds raised by the code under verification. -/
inductive Err where
  | runtimeError (msg : String)
  | typeError (msg : String)
  | attributeError (msg : String)
deriving DecidableEq

/-- Modelled from the spec: the wire types of the device transport
(cupy.cuda.nccl constants; integer widths 8/32/64 signed and unsigned,
half/single/double floating point). -/
inductive NcclDataType where
  | NCCL_INT8
  | NCCL_UINT8
  | NCCL_INT32
  | NCCL_UINT32
  | NCCL_INT64
  | NCCL_UINT64
  | NCCL_FLOAT16
  | NCCL_FLOAT32
  | NCCL_FLOAT64
deriving DecidableEq

/-- Modelled from the spec: the reduction operators of the device transport
(cupy.cuda.nccl constants). -/
inductive NcclOp where
  | NCCL_SUM
  | NCCL_PROD
  | NCCL_MAX
  | NCCL_MIN
deriving DecidableEq

/-- A positional argument handed to a transport send/recv primitive.  The
source passes arguments positionally, and send and recv in the file order
the count and wire type differently, so the trace records raw positions. -/
inductive NcclArg where
  | num (n : Nat)
  | typ (t : NcclDataType)
deriving DecidableEq

/-- One external call issued by the backend: either a device-transport call
(on the communicator handle or the group-bracketing functions of the nccl
module) or a rendezvous-store call. -/
inductive Call where
  | allReduce (sendbuf recvbuf count : Nat) (dt : NcclDataType) (op : NcclOp) (stream : Nat)
  | reduce (sendbuf recvbuf count : Nat) (dt : NcclDataType) (op : NcclOp) (root stream : Nat)
  | broadcast (sendbuf recvbuf count : Nat) (dt : NcclDataType) (root stream : Nat)
  | reduceScatter (sendbuf recvbuf count : Nat) (dt : NcclDataType) (op : NcclOp) (stream : Nat)
  | allGather (sendbuf recvbuf count : Nat) (dt : NcclDataType) (stream : Nat)
  | send (a1 a2 a3 : NcclArg) (peer stream : Nat)
  | recv (a1 a2 a3 : NcclArg) (peer stream : Nat)
  | groupStart
  | groupEnd
  | storeWaitUntil (key : String) (generation : Nat)
deriving DecidableEq

/-- Device-transport calls, as opposed to rendezvous-store calls. -/
def Call.isTransport : Call → Bool
  | .storeWaitUntil _ _ => false
  | _ => true

/-- Modelled from the spec: the contiguity flags the array library exposes
for a buffer, one per canonical memory order. -/
structure Flags where
  c_contiguous : Bool
  f_contiguous : Bool
deriving DecidableEq

/-- Modelled from the spec: the memory handle of a device buffer, exposing
the device pointer as its ptr attribute. -/
structure MemoryPointer where
  ptr : Nat
deriving DecidableEq

/-- Modelled from the spec: the array/buffer library is outside src/; per
the BufferView contract a buffer exposes its shape, its element-type
character tag, its device pointer (as data.ptr) and its contiguity flags. -/
structure Ndarray where
  shape : List Nat
  dtypeChar : Char
  data : MemoryPointer
  flags : Flags
deriving DecidableEq

/-- Element count of the buffer: the product of the shape. -/
def Ndarray.size (a : Ndarray) : Nat := a.shape.prod

/-- Leading dimension of the shape, as read by the shape guards
(shape[0]; the arrays the guards are applied to have at least one axis). -/
def Ndarray.shape0 (a : Ndarray) : Nat := a.shape.headD 0

/-- Modelled from the spec: byte size of one element for each supported
element-type character tag. -/
def itemsize : Char → Nat
  | 'b' => 1
  | 'B' => 1
  | 'i' => 4
  | 'I' => 4
  | 'l' => 8
  | 'L' => 8
  | 'q' => 8
  | 'Q' => 8
  | 'e' => 2
  | 'f' => 4
  | 'd' => 8
  | 'F' => 8
  | 'D' => 16
  | _ => 0

/-- Modelled from the spec: basic indexing a[i] along the leading axis of a
C-contiguous array, as the composed operations use it: the leading dimension
is dropped and the device pointer advances by i times the byte size of one
slice.  The slice of a C-contiguous array is C-contiguous, and is also
F-contiguous when at most one axis remains. -/
def Ndarray.item (a : Ndarray) (i : Nat) : Ndarray :=
  { shape := a.shape.tail
    dtypeChar := a.dtypeChar
    data := ⟨a.data.ptr + i * a.shape.tail.prod * itemsize a.dtypeChar⟩
    flags := ⟨a.flags.c_contiguous, Nat.ble a.shape.tail.length 1⟩ }

/-- The same buffer with different contiguity flags. -/
def Ndarray.withFlags (a : Ndarray) (fl : Flags) : Ndarray :=
  { a with flags := fl }

/-- Modelled from the spec: the array type has no attribute named ndarray
dot data underscore ptr — the buffer contract exposes the device pointer
only as data.ptr, the access every other call site in the file uses — so
evaluating that attribute raises AttributeError. -/
def Ndarray.data_ptr (_a : Ndarray) : Except Err Nat :=
  .error (.attributeError ("ndarray object has no attribute data_ptr"))

/-- Modelled from the spec: an execution stream exposes its ptr handle. -/
structure Stream where
  ptr : Nat
deriving DecidableEq

/-- Modelled from the spec: the ambient current-stream query of the array
library (cupy.cuda.stream.get_current_stream). -/
def get_current_stream : Stream := ⟨0⟩

/-- Transcribed from src/cupyx/distributed/_comm.py lines 7-20: the mapping
from element-type character tag to wire type.  The complex tags map to the
corresponding real wire types (size of array will be doubled). -/
def _nccl_dtypes : Char → Option NcclDataType
  | 'b' => some .NCCL_INT8
  | 'B' => some .NCCL_UINT8
  | 'i' => some .NCCL_INT32
  | 'I' => some .NCCL_UINT32
  | 'l' => some .NCCL_INT64
  | 'L' => some .NCCL_UINT64
  | 'q' => some .NCCL_INT64
  | 'Q' => some .NCCL_UINT64
  | 'e' => some .NCCL_FLOAT16
  | 'f' => some .NCCL_FLOAT32
  | 'd' => some .NCCL_FLOAT64
  | 'F' => some .NCCL_FLOAT32
  | 'D' => some .NCCL_FLOAT64
  | _ => none

/-- Transcribed from src/cupyx/distributed/_comm.py lines 23-26. -/
def _nccl_ops : String → Option NcclOp
  | "sum" => some .NCCL_SUM
  | "prod" => some .NCCL_PROD
  | "max" => some .NCCL_MAX
  | "min" => some .NCCL_MIN
  | _ => none

/-- The message of the layout error raised by _check_contiguous. -/
def layoutErrorMsg : String := "NCCL requires arrays to be contiguous"

/-- The layout error raised by _check_contiguous. -/
def layoutError : Err := .runtimeError layoutErrorMsg

/-- Outcome of one public operation: the normal return or the raised
exception, together with the ordered list of external calls it issued. -/
abbrev OpResult := Except Err Unit × List Call

/-- Sequencing after a pure step that may raise but issues no call. -/
def step {α : Type} : Except Err α → (α → OpResult) → OpResult
  | .error e, _ => (.error e, [])
  | .ok a, k => k a

/-- Sequencing after a contiguity check (raise or continue, no call). -/
def check : Option Err → OpResult → OpResult
  | some e, _ => (.error e, [])
  | none, k => k

/-- Issue one call, then continue; the call stays in the trace even when the
continuation raises, matching Python exception flow. -/
def issue (c : Call) (k : OpResult) : OpResult :=
  (k.1, c :: k.2)

/-- Sequencing of two traced computations: when the first raises, its calls
stand and the second never runs. -/
def seq : OpResult → OpResult → OpResult
  | (.error e, cs), _ => (.error e, cs)
  | (.ok _, cs), k => (k.1, cs ++ k.2)

/-- The per-process backend state the operations read: group size and own
rank (the communicator handle and store proxy are represented by the call
trace). -/
structure NCCLBackend where
  _n_devices : Nat
  rank : Nat
deriving DecidableEq

/-- Transcribed from lines 50-52.  The source condition is
(not array.flags.c_contiguous) or array.flags.f_contiguous — Python binds
not tighter than or — and raises RuntimeError when it holds. -/
def NCCLBackend._check_contiguous (_self : NCCLBackend) (array : Ndarray) : Option Err :=
  if !array.flags.c_contiguous || array.flags.f_contiguous then
    some (.runtimeError layoutErrorMsg)
  else
    none

/-- Transcribed from lines 54-61: unknown tags raise TypeError; the two
complex tags return the doubled element count. -/
def NCCLBackend._get_nccl_dtype_and_count (_self : NCCLBackend) (array : Ndarray) :
    Except Err (NcclDataType × Nat) :=
  match _nccl_dtypes array.dtypeChar with
  | none => .error (.typeError ("Unknown dtype for NCCL"))
  | some nccl_dtype =>
    if array.dtypeChar = 'F' ∨ array.dtypeChar = 'D' then
      .ok (nccl_dtype, 2 * array.size)
    else
      .ok (nccl_dtype, array.size)

/-- Transcribed from lines 63-66. -/
def NCCLBackend._get_stream (_self : NCCLBackend) (stream : Option Stream) : Nat :=
  match stream with
  | none => get_current_stream.ptr
  | some s => s.ptr

/-- Transcribed from lines 68-71. -/
def NCCLBackend._get_op (_self : NCCLBackend) (op : String) : Except Err NcclOp :=
  match _nccl_ops op with
  | none => .error (.runtimeError ("Unknown op for NCCL"))
  | some o => .ok o

/-- Transcribed from lines 124-125: the communicator send primitive receives
positionally (array.data.ptr, dtype, count, peer, stream). -/
def NCCLBackend._send (_self : NCCLBackend) (array : Ndarray) (peer : Nat)
    (dtype : NcclDataType) (count : Nat) (stream : Nat) : Call :=
  .send (.num array.data.ptr) (.typ dtype) (.num count) peer stream

/-- Transcribed from lines 133-134: the communicator recv primitive receives
positionally (out_array.data.ptr, count, dtype, peer, stream). -/
def NCCLBackend._recv (_self : NCCLBackend) (out_array : Ndarray) (peer : Nat)
    (dtype : NcclDataType) (count : Nat) (stream : Nat) : Call :=
  .recv (.num out_array.data.ptr) (.num count) (.typ dtype) peer stream

/-- Transcribed from lines 73-80.  Argument evaluation of the allReduce call
reads out_array.data_ptr, which raises before the call is issued. -/
def NCCLBackend.all_reduce (self : NCCLBackend) (in_array out_array : Ndarray)
    (op : String := "sum") (stream : Option Stream := none) : OpResult :=
  check (self._check_contiguous in_array) <|
  check (self._check_contiguous out_array) <|
  let stream := self._get_stream stream
  step (self._get_nccl_dtype_and_count in_array) fun (dtype, count) =>
  step (self._get_op op) fun op =>
  step out_array.data_ptr fun recvbuf =>
  (.ok (), [.allReduce in_array.data.ptr recvbuf count dtype op stream])

/-- Transcribed from lines 82-91: out_array is checked only when the calling
rank is the root. -/
def NCCLBackend.reduce (self : NCCLBackend) (in_array out_array : Ndarray)
    (root : Nat := 0) (op : String := "sum") (stream : Option Stream := none) : OpResult :=
  check (self._check_contiguous in_array) <|
  check (if self.rank = root then self._check_contiguous out_array else none) <|
  let stream := self._get_stream stream
  step (self._get_nccl_dtype_and_count in_array) fun (dtype, count) =>
  step (self._get_op op) fun op =>
  (.ok (), [.reduce in_array.data.ptr out_array.data.ptr count dtype op root stream])

/-- Transcribed from lines 93-99: in_array serves as both send and receive
buffer. -/
def NCCLBackend.broadcast (self : NCCLBackend) (in_array : Ndarray)
    (root : Nat := 0) (stream : Option Stream := none) : OpResult :=
  check (self._check_contiguous in_array) <|
  let stream := self._get_stream stream
  step (self._get_nccl_dtype_and_count in_array) fun (dtype, count) =>
  (.ok (), [.broadcast in_array.data.ptr in_array.data.ptr count dtype root stream])

/-- Transcribed from lines 101-108.  As in all_reduce, the receive-buffer
argument is the out_array.data_ptr attribute access, which raises. -/
def NCCLBackend.reduce_scatter (self : NCCLBackend) (in_array out_array : Ndarray)
    (op : String := "sum") (stream : Option Stream := none) : OpResult :=
  check (self._check_contiguous in_array) <|
  check (self._check_contiguous out_array) <|
  let stream := self._get_stream stream
  step (self._get_nccl_dtype_and_count in_array) fun (dtype, count) =>
  step (self._get_op op) fun op =>
  step out_array.data_ptr fun recvbuf =>
  (.ok (), [.reduceScatter in_array.data.ptr recvbuf count dtype op stream])

/-- Transcribed from lines 110-116, with the same out_array.data_ptr access
as all_reduce. -/
def NCCLBackend.all_gather (self : NCCLBackend) (in_array out_array : Ndarray)
    (stream : Option Stream := none) : OpResult :=
  check (self._check_contiguous in_array) <|
  check (self._check_contiguous out_array) <|
  let stream := self._get_stream stream
  step (self._get_nccl_dtype_and_count in_array) fun (dtype, count) =>
  step out_array.data_ptr fun recvbuf =>
  (.ok (), [.allGather in_array.data.ptr recvbuf count dtype stream])

/-- Transcribed from lines 118-122. -/
def NCCLBackend.send (self : NCCLBackend) (array : Ndarray) (peer : Nat)
    (stream : Option Stream := none) : OpResult :=
  check (self._check_contiguous array) <|
  let stream := self._get_stream stream
  step (self._get_nccl_dtype_and_count array) fun (dtype, count) =>
  (.ok (), [self._send array peer dtype count stream])

/-- Transcribed from lines 127-131. -/
def NCCLBackend.recv (self : NCCLBackend) (out_array : Ndarray) (peer : Nat)
    (stream : Option Stream := none) : OpResult :=
  check (self._check_contiguous out_array) <|
  let stream := self._get_stream stream
  step (self._get_nccl_dtype_and_count out_array) fun (dtype, count) =>
  (.ok (), [self._recv out_array peer dtype count stream])

/-- Transcribed from lines 138-147: one send and one recv bracketed between
ncclGroupStart and ncclGroupEnd. -/
def NCCLBackend.send_recv (self : NCCLBackend) (in_array out_array : Ndarray) (peer : Nat)
    (stream : Option Stream := none) : OpResult :=
  check (self._check_contiguous in_array) <|
  check (self._check_contiguous out_array) <|
  let stream := self._get_stream stream
  step (self._get_nccl_dtype_and_count in_array) fun (idtype, icount) =>
  step (self._get_nccl_dtype_and_count out_array) fun (odtype, ocount) =>
  (.ok (),
    [.groupStart,
     self._send in_array peer idtype icount stream,
     self._recv out_array peer odtype ocount stream,
     .groupEnd])

/-- Transcribed from the loop body of lines 159-162: for each i the root
sends in_array[i], with the wire type and count translated from out_array
inside the loop (the per-iteration translation may raise after calls were
already issued). -/
def NCCLBackend.scatterSendLoop (self : NCCLBackend) (in_array out_array : Ndarray)
    (stream : Nat) : List Nat → OpResult
  | [] => (.ok (), [])
  | i :: rest =>
    let array := in_array.item i
    step (self._get_nccl_dtype_and_count out_array) fun (idtype, icount) =>
    issue (self._send array i idtype icount stream)
      (self.scatterSendLoop in_array out_array stream rest)

/-- Transcribed from lines 149-165. -/
def NCCLBackend.scatter (self : NCCLBackend) (in_array out_array : Ndarray)
    (root : Nat := 0) (stream : Option Stream := none) : OpResult :=
  step (if in_array.shape0 ≠ self._n_devices then
          Except.error (Err.runtimeError
            ("scatter requires in_array to have n_devices elements in its first dimension"))
        else Except.ok ()) fun _ =>
  check (self._check_contiguous in_array) <|
  check (self._check_contiguous out_array) <|
  let stream := self._get_stream stream
  issue .groupStart <|
  seq (if root = self.rank
        then self.scatterSendLoop in_array out_array stream (List.range self._n_devices)
        else (.ok (), [])) <|
  step (self._get_nccl_dtype_and_count out_array) fun (dtype, count) =>
  (.ok (), [self._recv out_array root dtype count stream, .groupEnd])

/-- Transcribed from the loop body of lines 178-181: for each i the root
receives into out_array[i], but the wire type and count are translated from
the whole out_array, not from the slice. -/
def NCCLBackend.gatherRecvLoop (self : NCCLBackend) (out_array : Ndarray)
    (stream : Nat) : List Nat → OpResult
  | [] => (.ok (), [])
  | i :: rest =>
    let array := out_array.item i
    step (self._get_nccl_dtype_and_count out_array) fun (odtype, ocount) =>
    issue (self._recv array i odtype ocount stream)
      (self.gatherRecvLoop out_array stream rest)

/-- Transcribed from lines 167-184. -/
def NCCLBackend.gather (self : NCCLBackend) (in_array out_array : Ndarray)
    (root : Nat := 0) (stream : Option Stream := none) : OpResult :=
  step (if out_array.shape0 ≠ self._n_devices then
          Except.error (Err.runtimeError
            ("gather requires out_array to have n_devices elements in its first dimension"))
        else Except.ok ()) fun _ =>
  check (self._check_contiguous in_array) <|
  check (self._check_contiguous out_array) <|
  let stream := self._get_stream stream
  issue .groupStart <|
  seq (if root = self.rank
        then self.gatherRecvLoop out_array stream (List.range self._n_devices)
        else (.ok (), [])) <|
  step (self._get_nccl_dtype_and_count in_array) fun (dtype, count) =>
  (.ok (), [self._send in_array root dtype count stream, .groupEnd])

/-- Transcribed from the loop of lines 203-205. -/
def NCCLBackend.allToAllLoop (self : NCCLBackend) (in_array out_array : Ndarray)
    (idtype odtype : NcclDataType) (icount ocount stream : Nat) : List Nat → List Call
  | [] => []
  | i :: rest =>
    self._send (in_array.item i) i idtype icount stream ::
    self._recv (out_array.item i) i odtype ocount stream ::
    self.allToAllLoop in_array out_array idtype odtype icount ocount stream rest

/-- Transcribed from lines 186-206.  Both shape guards of the source test
out_array.shape[0]; the first raises the message about in_array. -/
def NCCLBackend.all_to_all (self : NCCLBackend) (in_array out_array : Ndarray)
    (stream : Option Stream := none) : OpResult :=
  step (if out_array.shape0 ≠ self._n_devices then
          Except.error (Err.runtimeError
            ("all_to_all requires in_array to have n_devices elements in its first dimension"))
        else Except.ok ()) fun _ =>
  step (if out_array.shape0 ≠ self._n_devices then
          Except.error (Err.runtimeError
            ("all_to_all requires out_array to have n_devices elements in its first dimension"))
        else Except.ok ()) fun _ =>
  check (self._check_contiguous in_array) <|
  check (self._check_contiguous out_array) <|
  let stream := self._get_stream stream
  step (self._get_nccl_dtype_and_count (in_array.item 0)) fun (idtype, icount) =>
  step (self._get_nccl_dtype_and_count (out_array.item 0)) fun (odtype, ocount) =>
  (.ok (),
    .groupStart ::
      self.allToAllLoop in_array out_array idtype odtype icount ocount stream
        (List.range self._n_devices) ++ [.groupEnd])

/-- Transcribed from lines 208-211. -/
def NCCLBackend.cpu_barrier (_self : NCCLBackend) : OpResult :=
  (.ok (), [.storeWaitUntil ("barrier") 0])

/-- Transcribed from lines 213-216: the body is identical to cpu_barrier; it
performs only the store barrier wait and never touches value or root. -/
def NCCLBackend.cpu_broadcast {α : Type} (_self : NCCLBackend) (_value : α)
    (_root : Nat := 0) : OpResult :=
  (.ok (), [.storeWaitUntil ("barrier") 0])

/-- Modelled from the spec: the rendezvous store is a mapping from string
keys to opaque values (session identifiers represented as naturals); set
overwrites silently, get blocks until the key is present. -/
structure TCPStore where
  kv : List (String × Nat)
deriving DecidableEq

/-- Modelled from the spec: store set — overwrites silently if present. -/
def TCPStore.set (s : TCPStore) (k : String) (v : Nat) : TCPStore :=
  ⟨(k, v) :: s.kv⟩

/-- Modelled from the spec: the value currently under a key, if any; a
blocking get returns it exactly when it is present. -/
def TCPStore.get? (s : TCPStore) (k : String) : Option Nat :=
  (s.kv.find? (fun p => p.1 = k)).map (fun p => p.2)

/-- Modelled from the spec: the transport handle every rank constructs from
(group size, session identifier, own rank). -/
structure NcclCommunicator where
  n_devices : Nat
  nccl_id : Nat
  rank : Nat
deriving DecidableEq

/-- The externally visible actions a rank performs during construction, in
issue order. -/
inductive BootAction where
  | storeRun
  | storeSet (key : String)
  | barrier
  | storeGet (key : String)
deriving DecidableEq

/-- Transcribed from lines 32-48 of src/cupyx/distributed/_comm.py, with the
store semantics modelled from the spec.  Rank 0 starts and owns the store,
generates a fresh identifier, publishes it under the key, then barriers.
Every other rank barriers and then performs a blocking get; per the spec the
barrier completes only after every rank has reached it, so the store state a
non-zero rank observes at its get already contains everything rank 0 set
before its own barrier — that post-barrier state is the store_at_get
argument, and the blocking get is its lookup (a missing key means the get
never returns).  The result is the action trace, the store state after the
call and, when construction returns, the communicator handle built as
NcclCommunicator(n_devices, nccl_id, rank). -/
def backendInit (n_devices rank fresh_id : Nat) (store_at_get : TCPStore) :
    List BootAction × TCPStore × Option NcclCommunicator :=
  if rank = 0 then
    let store := TCPStore.set ⟨[]⟩ ("nccl_id") fresh_id
    ([.storeRun, .storeSet ("nccl_id"), .barrier], store, some ⟨n_devices, fresh_id, rank⟩)
  else
    ([.barrier, .storeGet ("nccl_id")], store_at_get,
      (store_at_get.get? ("nccl_id")).map fun nccl_id => ⟨n_devices, nccl_id, rank⟩)

/-! Concrete fixtures used by the closed theorems and witnesses. -/

/-- A two-rank group seen from rank 0. -/
def backend0 : NCCLBackend := ⟨2, 0⟩

/-- A two-rank group seen from rank 1. -/
def backend1 : NCCLBackend := ⟨2, 1⟩

/-- A 1-D contiguous float32 buffer: contiguous in both canonical orders. -/
def arr1dBoth : Ndarray := ⟨[4], 'f', ⟨100⟩, ⟨true, true⟩⟩

/-- A second 1-D contiguous float32 buffer. -/
def arr1dBoth2 : Ndarray := ⟨[4], 'f', ⟨200⟩, ⟨true, true⟩⟩

/-- A 2x2 float32 buffer contiguous only in Fortran order. -/
def arrFOnly : Ndarray := ⟨[2, 2], 'f', ⟨100⟩, ⟨false, true⟩⟩

/-- A 2x2 float32 buffer contiguous in neither order. -/
def arrNeither : Ndarray := ⟨[2, 2], 'f', ⟨300⟩, ⟨false, false⟩⟩

/-- A 2x2 float32 C-order buffer: the only kind the source check accepts. -/
def arrCIn : Ndarray := ⟨[2, 2], 'f', ⟨100⟩, ⟨true, false⟩⟩

/-- A second 2x2 float32 C-order buffer. -/
def arrCOut : Ndarray := ⟨[2, 2], 'f', ⟨200⟩, ⟨true, false⟩⟩

/-- A 2x2x2 float32 C-order buffer whose leading dimension matches the
two-rank group, used as the gather output. -/
def gatherOut : Ndarray := ⟨[2, 2, 2], 'f', ⟨200⟩, ⟨true, false⟩⟩

/-- A 3x2 float32 C-order buffer whose leading dimension does not match the
two-rank group. -/
def a2aIn : Ndarray := ⟨[3, 2], 'f', ⟨100⟩, ⟨true, false⟩⟩

/-- A 1-D single-precision complex buffer of three elements. -/
def arrComplexF : Ndarray := ⟨[3], 'F', ⟨400⟩, ⟨true, true⟩⟩

/-! Helper lemmas shared by the validation-ordering proofs. -/

/-- A check with a failing contiguity validation raises it with no call. -/
theorem check_head_error {c : Option Err} (k : OpResult) (h : c ≠ none) :
    ∃ e, check c k = (.error e, []) := by
  cases hc : c with
  | none => exact absurd hc h
  | some e => exact ⟨e, rfl⟩

/-- Two consecutive checks: if either validation fails, the composite raises
with no call issued. -/
theorem check2_head_error {c1 c2 : Option Err} (k : OpResult) (h : c1 ≠ none ∨ c2 ≠ none) :
    ∃ e, check c1 (check c2 k) = (.error e, []) := by
  cases hc : c1 with
  | some e => exact ⟨e, rfl⟩
  | none =>
    rcases h with h | h
    · exact absurd hc h
    · exact check_head_error k h

/-! Theorems settling the claims. -/

/-- Claim C2: the spec says layout validation succeeds exactly when the
buffer is contiguous in at least one canonical order.  The source condition
(not c_contiguous) or f_contiguous instead rejects every buffer that is
F-contiguous — including buffers contiguous in both orders, such as any 1-D
contiguous array — and accepts only buffers that are C-contiguous and not
F-contiguous.  Evaluations: a both-orders-contiguous buffer and an
only-Fortran-contiguous buffer are rejected with the layout error, a
neither-order buffer is rejected, and a C-only buffer passes. -/
theorem check_contiguous_rejects_contiguous_buffers :
    NCCLBackend._check_contiguous backend0 arr1dBoth = some layoutError ∧
    NCCLBackend._check_contiguous backend0 arrFOnly = some layoutError ∧
    NCCLBackend._check_contiguous backend0 arrNeither = some layoutError ∧
    NCCLBackend._check_contiguous backend0 arrCIn = none :=
  ⟨rfl, rfl, rfl, rfl⟩

/-- Claim C1: on a pair of buffers that pass layout validation, with a
supported element type and reduction op, all_reduce never reaches the
allReduce transport primitive: evaluating the receive-buffer argument reads
the nonexistent data_ptr attribute of the output array and raises
AttributeError, so the operation fails with no transport call issued. -/
theorem all_reduce_out_pointer_attribute_error :
    NCCLBackend._check_contiguous backend0 arrCIn = none ∧
    NCCLBackend._check_contiguous backend0 arrCOut = none ∧
    NCCLBackend.all_reduce backend0 arrCIn arrCOut ("sum") none =
      (.error (.attributeError ("ndarray object has no attribute data_ptr")), []) :=
  ⟨rfl, rfl, rfl⟩

/-- Claim C3: a complex-valued buffer is translated to the corresponding
real wire type with the element count doubled, and every non-complex
supported element type keeps the buffer element count. -/
theorem nccl_dtype_complex_count_doubled (b : NCCLBackend) (a : Ndarray) :
    (a.dtypeChar = 'F' →
      b._get_nccl_dtype_and_count a = .ok (.NCCL_FLOAT32, 2 * a.size)) ∧
    (a.dtypeChar = 'D' →
      b._get_nccl_dtype_and_count a = .ok (.NCCL_FLOAT64, 2 * a.size)) ∧
    (∀ dt, _nccl_dtypes a.dtypeChar = some dt → a.dtypeChar ≠ 'F' → a.dtypeChar ≠ 'D' →
      b._get_nccl_dtype_and_count a = .ok (dt, a.size)) := by
  refine ⟨fun h => ?_, fun h => ?_, fun dt hdt hF hD => ?_⟩
  · unfold NCCLBackend._get_nccl_dtype_and_count
    rw [h]
    rfl
  · unfold NCCLBackend._get_nccl_dtype_and_count
    rw [h]
    rfl
  · unfold NCCLBackend._get_nccl_dtype_and_count
    rw [hdt]
    exact if_neg (fun hc => hc.elim hF hD)

/-- Claim C3 witness: the three-element single-precision complex buffer is
translated to six single-precision real wire elements. -/
theorem nccl_dtype_complex_count_doubled_witness :
    NCCLBackend._get_nccl_dtype_and_count backend0 arrComplexF = .ok (.NCCL_FLOAT32, 6) := by
  have h := (nccl_dtype_complex_count_doubled backend0 arrComplexF).1 rfl
  exact h

/-- Claim C4: rank 0 starts the store, publishes the freshly generated
session identifier under the fixed key and then barriers; every other rank
barriers and then performs the blocking get, observing exactly the store
state rank 0 published; consequently every rank in a group of size at least
one constructs its communicator handle from the group size, the identical
identifier generated by rank 0, and its own rank (the generator argument g
of the non-zero rank is irrelevant). -/
theorem bootstrap_same_session_id (n fresh_id g r : Nat) (hn : 1 ≤ n) (hr : r ≠ 0)
    (hrn : r < n) :
    (backendInit n 0 fresh_id ⟨[]⟩).1 = [.storeRun, .storeSet ("nccl_id"), .barrier] ∧
    (backendInit n 0 fresh_id ⟨[]⟩).2.2 = some ⟨n, fresh_id, 0⟩ ∧
    (backendInit n r g (backendInit n 0 fresh_id ⟨[]⟩).2.1).1 =
      [.barrier, .storeGet ("nccl_id")] ∧
    (backendInit n r g (backendInit n 0 fresh_id ⟨[]⟩).2.1).2.2 =
      some ⟨n, fresh_id, r⟩ := by
  unfold backendInit
  rw [if_pos rfl, if_neg hr]
  exact ⟨rfl, rfl, rfl, rfl⟩

/-- Claim C4 witness: in a group of two, rank 1 observes the identifier 7
generated by rank 0 and both handles carry it. -/
theorem bootstrap_same_session_id_witness :
    (backendInit 2 0 7 ⟨[]⟩).2.2 = some ⟨2, 7, 0⟩ ∧
    (backendInit 2 1 3 (backendInit 2 0 7 ⟨[]⟩).2.1).2.2 = some ⟨2, 7, 1⟩ := by
  have h := bootstrap_same_session_id 2 7 3 1 (by decide) (by decide) (by decide)
  exact ⟨h.2.1, h.2.2.2⟩

/-- Claim C5: on a pair of 1-D contiguous buffers — contiguous in both
canonical orders — send_recv raises the layout error and issues nothing,
because the buggy contiguity check rejects F-contiguous buffers; on a pair
the check does accept, it issues exactly one send to the peer and one recv
from the peer, bracketed by one group start and one group end. -/
theorem send_recv_contiguous_pair_rejected :
    NCCLBackend.send_recv backend0 arr1dBoth arr1dBoth2 1 none = (.error layoutError, []) ∧
    NCCLBackend.send_recv backend0 arrCIn arrCOut 1 none =
      (.ok (),
        [.groupStart,
         .send (.num 100) (.typ .NCCL_FLOAT32) (.num 4) 1 0,
         .recv (.num 200) (.num 4) (.typ .NCCL_FLOAT32) 1 0,
         .groupEnd]) :=
  ⟨rfl, rfl⟩

/-- Claim C6: gather at the root issues its receives with the wire count
translated from the whole output buffer (eight elements for the 2x2x2
output) instead of the count of the slice being received (four elements for
a 2x2 slice), while each receive targets the pointer of the corresponding
leading slice; the single send of the whole input buffer to the root and the
group bracketing are as described. -/
theorem gather_recv_count_from_whole_out :
    NCCLBackend.gather backend0 arrCIn gatherOut 0 none =
      (.ok (),
        [.groupStart,
         .recv (.num 200) (.num 8) (.typ .NCCL_FLOAT32) 0 0,
         .recv (.num 216) (.num 8) (.typ .NCCL_FLOAT32) 1 0,
         .send (.num 100) (.typ .NCCL_FLOAT32) (.num 4) 0 0,
         .groupEnd]) ∧
    NCCLBackend._get_nccl_dtype_and_count backend0 (Ndarray.item gatherOut 0) =
      .ok (.NCCL_FLOAT32, 4) ∧
    (8 : Nat) ≠ 4 :=
  ⟨rfl, rfl, by decide⟩

/-- Claim C7: with an input buffer whose leading dimension is 3 in a group
of size 2 (and a matching output buffer), all_to_all raises no shape error —
both source guards test the output buffer — and proceeds to issue transport
calls, contradicting fail-before-any-transport-call. -/
theorem all_to_all_in_shape_unchecked :
    Ndarray.shape0 a2aIn = 3 ∧
    NCCLBackend._n_devices backend0 = 2 ∧
    NCCLBackend.all_to_all backend0 a2aIn arrCOut none =
      (.ok (),
        [.groupStart,
         .send (.num 100) (.typ .NCCL_FLOAT32) (.num 2) 0 0,
         .recv (.num 200) (.num 2) (.typ .NCCL_FLOAT32) 0 0,
         .send (.num 108) (.typ .NCCL_FLOAT32) (.num 2) 1 0,
         .recv (.num 208) (.num 2) (.typ .NCCL_FLOAT32) 1 0,
         .groupEnd]) :=
  ⟨rfl, rfl, rfl⟩

/-- Claim C8 counterexample: on a calling rank that is not the root, reduce
does not validate the output buffer: with a contiguity-failing output buffer
it still succeeds and issues its transport call, refuting validation of
every buffer argument on every calling rank. -/
theorem reduce_out_unchecked_on_nonroot :
    NCCLBackend._check_contiguous backend1 arrNeither = some layoutError ∧
    NCCLBackend.reduce backend1 arrCIn arrNeither 0 ("sum") none =
      (.ok (), [.reduce 100 300 4 .NCCL_FLOAT32 .NCCL_SUM 0 0]) :=
  ⟨rfl, rfl⟩

/-- Claim C8 (amended): for every public data-moving operation, a failing
contiguity validation makes the call raise with no transport call issued;
every buffer argument is validated on the calling rank, except the output
buffer of reduce, which is validated only when the calling rank is the root
— on other ranks the behavior of reduce is independent of its flags. -/
theorem validation_policy_amended (b : NCCLBackend) (x y : Ndarray) (root peer : Nat)
    (op : String) (s : Option Stream) (fl : Flags) :
    (b._check_contiguous x ≠ none ∨ b._check_contiguous y ≠ none →
      ∃ e, b.all_reduce x y op s = (.error e, [])) ∧
    (b._check_contiguous x ≠ none ∨ (b.rank = root ∧ b._check_contiguous y ≠ none) →
      ∃ e, b.reduce x y root op s = (.error e, [])) ∧
    (b._check_contiguous x ≠ none →
      ∃ e, b.broadcast x root s = (.error e, [])) ∧
    (b._check_contiguous x ≠ none ∨ b._check_contiguous y ≠ none →
      ∃ e, b.reduce_scatter x y op s = (.error e, [])) ∧
    (b._check_contiguous x ≠ none ∨ b._check_contiguous y ≠ none →
      ∃ e, b.all_gather x y s = (.error e, [])) ∧
    (b._check_contiguous x ≠ none →
      ∃ e, b.send x peer s = (.error e, [])) ∧
    (b._check_contiguous x ≠ none →
      ∃ e, b.recv x peer s = (.error e, [])) ∧
    (b._check_contiguous x ≠ none ∨ b._check_contiguous y ≠ none →
      ∃ e, b.send_recv x y peer s = (.error e, [])) ∧
    (b._check_contiguous x ≠ none ∨ b._check_contiguous y ≠ none →
      ∃ e, b.scatter x y root s = (.error e, [])) ∧
    (b._check_contiguous x ≠ none ∨ b._check_contiguous y ≠ none →
      ∃ e, b.gather x y root s = (.error e, [])) ∧
    (b._check_contiguous x ≠ none ∨ b._check_contiguous y ≠ none →
      ∃ e, b.all_to_all x y s = (.error e, [])) ∧
    (b.rank ≠ root →
      b.reduce x (y.withFlags fl) root op s = b.reduce x y root op s) := by
  refine ⟨fun h => ?_, fun h => ?_, fun h => ?_, fun h => ?_, fun h => ?_, fun h => ?_,
    fun h => ?_, fun h => ?_, fun h => ?_, fun h => ?_, fun h => ?_, fun h => ?_⟩
  · unfold NCCLBackend.all_reduce
    exact check2_head_error _ h
  · unfold NCCLBackend.reduce
    rcases h with h | ⟨hr, h⟩
    · exact check_head_error _ h
    · rw [if_pos hr]
      exact check2_head_error _ (Or.inr h)
  · unfold NCCLBackend.broadcast
    exact check_head_error _ h
  · unfold NCCLBackend.reduce_scatter
    exact check2_head_error _ h
  · unfold NCCLBackend.all_gather
    exact check2_head_error _ h
  · unfold NCCLBackend.send
    exact check_head_error _ h
  · unfold NCCLBackend.recv
    exact check_head_error _ h
  · unfold NCCLBackend.send_recv
    exact check2_head_error _ h
  · unfold NCCLBackend.scatter
    by_cases hs : x.shape0 ≠ b._n_devices
    · rw [if_pos hs]
      exact ⟨_, rfl⟩
    · rw [if_neg hs]
      exact check2_head_error _ h
  · unfold NCCLBackend.gather
    by_cases hs : y.shape0 ≠ b._n_devices
    · rw [if_pos hs]
      exact ⟨_, rfl⟩
    · rw [if_neg hs]
      exact check2_head_error _ h
  · unfold NCCLBackend.all_to_all
    by_cases hs : y.shape0 ≠ b._n_devices
    · rw [if_pos hs]
      exact ⟨_, rfl⟩
    · rw [if_neg hs, if_neg hs]
      exact check2_head_error _ h
  · unfold NCCLBackend.reduce
    rw [if_neg h, if_neg h]
    rfl

/-- Claim C8 witness: on rank 1 with root 0, reduce behaves identically
whether or not its output buffer carries non-contiguous flags. -/
theorem validation_policy_amended_witness :
    NCCLBackend.reduce backend1 arrCIn (Ndarray.withFlags arrCOut ⟨false, false⟩) 0
        ("sum") none =
      NCCLBackend.reduce backend1 arrCIn arrCOut 0 ("sum") none :=
  (validation_policy_amended backend1 arrCIn arrCOut 0 0 ("sum") none
    ⟨false, false⟩).2.2.2.2.2.2.2.2.2.2.2 (by decide)

/-- Claim C9: cpu_broadcast performs only the store barrier wait — its
behavior is independent of the value and the root, it never writes the value
to the store or reads one from it, and it issues no device-transport call;
hence a non-root rank cannot observe the value of the root through it. -/
theorem cpu_broadcast_only_barrier_wait :
    (∀ (v w r1 r2 : Nat),
      NCCLBackend.cpu_broadcast backend1 v r1 = NCCLBackend.cpu_broadcast backend1 w r2) ∧
    NCCLBackend.cpu_broadcast backend1 (42 : Nat) 0 =
      (.ok (), [.storeWaitUntil ("barrier") 0]) ∧
    ((NCCLBackend.cpu_broadcast backend1 (42 : Nat) 0).2.all
      (fun c => !c.isTransport)) = true :=
  ⟨fun _ _ _ _ => rfl, rfl, rfl⟩

/-- Claim C10: omitting the optional parameters resolves the reduction op to
sum for all_reduce, reduce and reduce_scatter, and the root to rank 0 for
reduce, broadcast, scatter, gather and cpu_broadcast. -/
theorem public_interface_defaults (b : NCCLBackend) (x y : Ndarray) (v : Nat) :
    b.all_reduce x y = b.all_reduce x y ("sum") none ∧
    b.reduce x y = b.reduce x y 0 ("sum") none ∧
    b.reduce_scatter x y = b.reduce_scatter x y ("sum") none ∧
    b.broadcast x = b.broadcast x 0 none ∧
    b.scatter x y = b.scatter x y 0 none ∧
    b.gather x y = b.gather x y 0 none ∧
    b.cpu_broadcast v = b.cpu_broadcast v 0 :=
  ⟨rfl, rfl, rfl, rfl, rfl, rfl, rfl⟩

end CupyxDistributed
